import Mathlib

/-!
Verification of the MorphProxy rotating reverse proxy (Go sources:
`utils.go`, the type declarations file, and the proxy-manager file).

The shallow embedding below translates the request-handling code into pure
Lean functions.  External effects are made explicit:

* the Redis coordination store appears as `Option`-valued inputs
  (`none` models a failed `Get`),
* the detection RPC appears as an `Option String` input (the value of the
  `authorized` field; `none` models a transport failure),
* reading `403.html` appears as an `Option (List Nat)` input (file bytes),
* the Go regexp engine appears as a parameter of type `RegexEngine`
  (`compile` returning the replace-all function, `none` modelling a
  compilation failure, on which `regexp.MustCompile` panics),
* gzip appears as an abstract byte-list transformation parameter; the
  concrete `modelGzip`/`modelGunzip` pair below is an injective,
  left-invertible, non-idempotent coder with the structural properties of
  gzip that the round-trip claims rely on.

Go `panic` inside the response-modification path is modelled by `Option`
results (`none` = abnormal termination).
-/

namespace MorphProxy

/-! ## Small string helpers (model of `strings.Contains`) -/

/-- Does the second list start with the first one. -/
def startsWithChars : List Char → List Char → Bool
  | [], _ => true
  | _ :: _, [] => false
  | c :: cs, d :: ds => c == d && startsWithChars cs ds

/-- Does the first list contain the second as a contiguous sublist. -/
def containsChars : List Char → List Char → Bool
  | [], sub => startsWithChars sub []
  | c :: rest, sub => startsWithChars sub (c :: rest) || containsChars rest sub

/-- Model of Go `strings.Contains s sub`. -/
def goContains (s sub : String) : Bool :=
  containsChars s.data sub.data

/-! ## Per-worker rate counters (`requestCounts` map in `StartProxyServer`) -/

abbrev Counts := List (String × Nat)

/-- Model of reading a Go `map[string]int`: a missing key reads as `0`. -/
def lookupCount : Counts → String → Nat
  | [], _ => 0
  | (k, v) :: rest, ip => if k = ip then v else lookupCount rest ip

/-- Model of `requestCounts[ip]++`: a missing key is inserted with value 1. -/
def bumpCount : Counts → String → Counts
  | [], ip => [(ip, 1)]
  | (k, v) :: rest, ip =>
      if k = ip then (k, v + 1) :: rest else (k, v) :: bumpCount rest ip

/-! ## The worker request handler (`mux.HandleFunc` for pattern `/`) -/

/-- The fields of an incoming HTTP request that the handler inspects.
`body = none` models a failing `io.ReadAll(r.Body)`. -/
structure Request where
  remoteAddr : String
  host : String
  requestURI : String
  acceptEncoding : String
  body : Option (List Nat)
deriving DecidableEq

/-- External inputs of one handler invocation: the result of
`redisClient.Get(ctx, "active_proxy")`, the `authorized` field returned by
the detection service (`none` = transport failure), the bytes of
`403.html` (`none` = read failure), and the detection flag. -/
structure WorkerEnv where
  activeProxyGet : Option String
  detectionResult : Option String
  forbiddenHtml : Option (List Nat)
  enableDetection : Bool
deriving DecidableEq

/-- What the handler writes back (or that it hands the request to the
reverse proxy). `httpError` stands for Go `http.Error`, `redirect` for
`http.Redirect`, `page` for an explicit `WriteHeader` plus `Write`. -/
inductive WorkerResponse where
  | httpError (status : Nat) (msg : String)
  | redirect (status : Nat) (location : String)
  | page (status : Nat) (contentType : String) (body : List Nat)
  | forward (req : Request)
deriving DecidableEq

/-- Decision part of the worker handler, after the counter was already
incremented; `ipCount` is the incremented value `requestCounts[ip]`.
Mirrors the branch structure of the Go handler line by line. -/
def rootResponse (env : WorkerEnv) (ipCount : Nat) (r : Request) : WorkerResponse :=
  if ipCount > 500 then .httpError 429 "Too Many Requests"
  else
    match env.activeProxyGet with
    | none => .httpError 500 "Internal Server Error"
    | some activeProxy =>
      if "https://" ++ r.host ≠ activeProxy then
        .redirect 302 (activeProxy ++ r.requestURI)
      else
        match r.body with
        | none => .httpError 500 "Failed to read request body"
        | some _ =>
          if env.enableDetection then
            match env.detectionResult with
            | none => .httpError 500 "Failed to connect to detection service"
            | some verdict =>
              if verdict = "MALICIOUS" then
                match env.forbiddenHtml with
                | none => .httpError 500 "Failed to load 403 page"
                | some htmlContent => .page 403 "text/html" htmlContent
              else .forward r
          else .forward r

/-- One invocation of the worker's `/` handler: increments the per-IP
counter, then decides the response. Returns the updated counter map and
the response. -/
def handleRoot (env : WorkerEnv) (counts : Counts) (r : Request) :
    Counts × WorkerResponse :=
  let counts' := bumpCount counts r.remoteAddr
  (counts', rootResponse env (lookupCount counts' r.remoteAddr) r)

/-! ## Response headers (Go `http.Header`) and the header-rule engine -/

/-- Go `http.Header` is a map from names to lists of values; modelled as an
association list with unique keys. -/
abbrev Headers := List (String × List String)

def hValues : Headers → String → List String
  | [], _ => []
  | (k, vs) :: rest, key => if k = key then vs else hValues rest key

/-- Model of `Header.Get`: the first value of the given key, `""` if the
key is missing or has no values. -/
def hGet (h : Headers) (key : String) : String :=
  match hValues h key with
  | [] => ""
  | v :: _ => v

/-- Model of `Header.Set`: replace all values of the key by the single
given one. -/
def hSet : Headers → String → String → Headers
  | [], key, v => [(key, [v])]
  | (k, vs) :: rest, key, v =>
      if k = key then (k, [v]) :: rest else (k, vs) :: hSet rest key v

/-- Model of `Header.Add`: append one more value for the key. -/
def hAdd : Headers → String → String → Headers
  | [], key, v => [(key, [v])]
  | (k, vs) :: rest, key, v =>
      if k = key then (k, vs ++ [v]) :: rest else (k, vs) :: hAdd rest key v

/-- Model of `Header.Del`: remove the key entirely. -/
def hDel : Headers → String → Headers
  | [], _ => []
  | (k, vs) :: rest, key =>
      if k = key then rest else (k, vs) :: hDel rest key

/-- One rule of the header-rules YAML file (struct `HeaderRule`). -/
structure HeaderRule where
  action : String
  header : String
  value : String
  regex : String
  replacement : String
deriving DecidableEq

/-- Abstraction of the Go regexp package: compiling a pattern either fails
(`none`, on which `regexp.MustCompile` panics) or yields the
replace-all-matches function `fun value replacement => newValue`
(`(*Regexp).ReplaceAllString`). -/
abbrev RegexEngine := String → Option (String → String → String)

/-- One iteration of the `switch rule.Action` loop of `applyHeaderRules`
(the Go function of the same name). A `none` result models the
`regexp.MustCompile` panic on a pattern that does not compile. -/
def applyRule (engine : RegexEngine) (h : Headers) (rule : HeaderRule) :
    Option Headers :=
  if rule.action = "add-header" then some (hAdd h rule.header rule.value)
  else if rule.action = "set-header" then some (hSet h rule.header rule.value)
  else if rule.action = "del-header" then some (hDel h rule.header)
  else if rule.action = "replace-header" then
    if rule.regex ≠ "" then
      if hGet h rule.header ≠ "" then
        match engine rule.regex with
        | none => none
        | some f =>
            some (hSet h rule.header (f (hGet h rule.header) rule.replacement))
      else some h
    else some h
  else some h

/-- Model of the Go `applyHeaderRules`: fold the rules over the response
headers; a panic anywhere aborts the whole application. -/
def applyHeaderRules (engine : RegexEngine) :
    List HeaderRule → Headers → Option Headers
  | [], h => some h
  | rule :: rest, h =>
      match applyRule engine h rule with
      | none => none
      | some h' => applyHeaderRules engine rest h'

/-! ### A concrete executable regex engine used in concrete instances

Literal patterns replaced everywhere in the subject, with the single
pattern `"("` failing to compile, just as the real engine fails on the
unbalanced ERE `"("`. Only used to instantiate `RegexEngine` in concrete
theorems. -/

/-- Fuel-driven replace-all of a literal pattern; the fuel is consumed once
per subject position so `length + 1` always suffices. -/
def replaceAllCharsAux : Nat → List Char → List Char → List Char → List Char
  | 0, _, _, s => s
  | _ + 1, _, _, [] => []
  | fuel + 1, pat, repl, c :: rest =>
      if pat ≠ [] ∧ startsWithChars pat (c :: rest) then
        repl ++ replaceAllCharsAux fuel pat repl (rest.drop (pat.length - 1))
      else c :: replaceAllCharsAux fuel pat repl rest

/-- Replace every occurrence of the literal pattern `p` in `v` by `repl`. -/
def litReplaceAll (p v repl : String) : String :=
  String.mk (replaceAllCharsAux (v.data.length + 1) p.data repl.data v.data)

/-- Concrete regex engine: every pattern is taken literally and replaced at
all of its occurrences; the invalid pattern `"("` fails to compile. -/
def litEngine : RegexEngine := fun p =>
  if p = "(" then none else some (fun v repl => litReplaceAll p v repl)

/-! ## Response rewriting: `ModifyResponse` and `gzipMiddleware` -/

/-- The parts of the upstream (backend) response that the rewrite path
touches. -/
structure UpstreamResponse where
  headers : Headers
  body : List Nat
deriving DecidableEq

/-- Model of `proxy.ModifyResponse`: apply the header rules, then, when the
forwarded request advertised gzip, set `Content-Encoding`, delete
`Content-Length` and re-encode the body. `encode` abstracts the gzip
writer. `none` models a panic inside `applyHeaderRules`. -/
def modifyResponse (engine : RegexEngine) (rules : List HeaderRule)
    (encode : List Nat → List Nat) (reqAcceptEncoding : String)
    (resp : UpstreamResponse) : Option UpstreamResponse :=
  match applyHeaderRules engine rules resp.headers with
  | none => none
  | some h1 =>
    if goContains reqAcceptEncoding "gzip" then
      some (UpstreamResponse.mk
        (hDel (hSet h1 "Content-Encoding" "gzip") "Content-Length")
        (encode resp.body))
    else some (UpstreamResponse.mk h1 resp.body)

/-- Model of the write path of `gzipMiddleware`: every byte the inner
handler writes passes through the gzip writer wrapped around the
`ResponseWriter` whenever the client advertised gzip. -/
def middlewareBody (encode : List Nat → List Nat) (reqAcceptEncoding : String)
    (written : List Nat) : List Nat :=
  if goContains reqAcceptEncoding "gzip" then encode written else written

/-- The body that reaches the backend for a given request: the handler
reads the whole body and restores it unchanged before forwarding; `none`
when the request is not forwarded. -/
def backendReceivedBody (env : WorkerEnv) (counts : Counts) (r : Request) :
    Option (List Nat) :=
  match (handleRoot env counts r).2 with
  | .forward fr => fr.body
  | _ => none

/-- The body the client receives when the request is forwarded upstream:
backend body → `ModifyResponse` → reverse-proxy copy through the
middleware's gzip writer. `none` when the request is not forwarded or the
header rules panic. -/
def forwardedClientBody (engine : RegexEngine) (rules : List HeaderRule)
    (encode : List Nat → List Nat) (env : WorkerEnv) (counts : Counts)
    (r : Request) (backendResp : UpstreamResponse) : Option (List Nat) :=
  match (handleRoot env counts r).2 with
  | .forward fr =>
    match modifyResponse engine rules encode fr.acceptEncoding backendResp with
    | none => none
    | some mr => some (middlewareBody encode r.acceptEncoding mr.body)
  | _ => none

/-- Stand-in for the gzip encoder: injective, never the identity on its
input (real gzip output starts with the magic byte 0x1f = 31 and differs
from the raw data), and left-invertible by `modelGunzip`. -/
def modelGzip (b : List Nat) : List Nat := 31 :: b

/-- Stand-in for one gzip decoding step; left inverse of `modelGzip`. -/
def modelGunzip (b : List Nat) : List Nat := b.tail

/-! ## Proxy registry and rotator (`ProxyManager`) -/

/-- The registry: the endpoint list and the cursor (`currentProxy`).
Endpoints are kept as their URL strings. -/
structure ProxyManager where
  proxies : List String
  currentProxy : String
deriving DecidableEq

/-- Model of `NewProxyManager`: the cursor starts at `proxies[0]` (the Go
code panics on an empty slice, hence the non-emptiness argument). -/
def NewProxyManager (proxyURLs : List String) (h : proxyURLs ≠ []) :
    ProxyManager :=
  { proxies := proxyURLs, currentProxy := proxyURLs.head h }

/-- One `swap(i, j)` step of `rand.Shuffle`; indices out of range leave the
list unchanged (never hit by `rand.Shuffle`, whose indices are in range). -/
def listSwap (l : List String) (i j : Nat) : List String :=
  match l[i]?, l[j]? with
  | some a, some b => (l.set i b).set j a
  | _, _ => l

/-- The swap sequence performed by one `rand.Shuffle` call, abstracted over
the random choices. -/
def applySwaps : List String → List (Nat × Nat) → List String
  | l, [] => l
  | l, s :: rest => applySwaps (listSwap l s.1 s.2) rest

/-- Model of `switchProxy`: shuffle the list in place, then set the cursor
to position 0 (`pm.proxies[0]`; the `headD ""` default is unreachable for
a non-empty registry, where the Go code would panic otherwise). -/
def switchProxy (pm : ProxyManager) (shuffleSwaps : List (Nat × Nat)) :
    ProxyManager :=
  let shuffled := applySwaps pm.proxies shuffleSwaps
  { proxies := shuffled, currentProxy := shuffled.headD "" }

/-- States of the registry reachable from construction by rotations. -/
inductive ReachablePM : ProxyManager → Prop where
  | start (urls : List String) (h : urls ≠ []) :
      ReachablePM (NewProxyManager urls h)
  | step (pm : ProxyManager) (s : List (Nat × Nat)) :
      ReachablePM pm → ReachablePM (switchProxy pm s)

/-! ## Entry point (`main`) and `ProxyManager.ServeHTTP` -/

/-- Worker startup read of `active_proxy` (lines before the handler is
installed): a failed `Get` falls back to the literal
`"https://localhost"`; the result seeds the worker's cached
`currentProxyURL`. -/
def startupActiveProxy (storeGet : Option String) : String :=
  match storeGet with
  | none => "https://localhost"
  | some v => v

/-- The scheme/host parts of a parsed `url.URL` that
`ProxyManager.ServeHTTP` compares. -/
structure GoURL where
  scheme : String
  host : String
deriving DecidableEq

/-- The URL rendering used for the redirect target (registry endpoints have
the shape scheme://host:port, so path components do not occur). -/
def urlString (u : GoURL) : String := u.scheme ++ "://" ++ u.host

/-- Model of `strings.Split(host, ":")[0]`. -/
def hostPart (h : String) : String := (h.splitOn ":").headD ""

inductive PMResponse where
  | internalError
  | redirect307 (location : String)
  | forward (target : String)
deriving DecidableEq

/-- Model of `ProxyManager.ServeHTTP`: a failed store read answers 500;
otherwise a scheme or host mismatch with the registry cursor answers a 307
redirect to the cursor's URL plus the request URI, and a match forwards to
the active proxy read from the store. -/
def pmServeHTTP (storeActive : Option String) (current : GoURL)
    (requested : GoURL) (requestURI : String) : PMResponse :=
  match storeActive with
  | none => .internalError
  | some active =>
    if requested.scheme ≠ current.scheme
        ∨ hostPart requested.host ≠ hostPart current.host then
      .redirect307 (urlString current ++ requestURI)
    else .forward active

/-! ## Suspicion tracker and the entry-point detection step -/

abbrev Ratings := List (String × Int)

def lookupRating : Ratings → String → Int
  | [], _ => 0
  | (k, v) :: rest, ip => if k = ip then v else lookupRating rest ip

def bumpRating : Ratings → String → Int → Ratings
  | [], ip, d => [(ip, d)]
  | (k, v) :: rest, ip, d =>
      if k = ip then (k, v + d) :: rest else (k, v) :: bumpRating rest ip d

/-- The suspicion tracker: its per-IP store keys and its threshold (struct
`SuspiciousRating`; the store state is made explicit). -/
structure SuspiciousRating where
  ratings : Ratings
  maxSuspicion : Int
deriving DecidableEq

/-- Modelled from the spec: `getRating(ip)` — read of the per-source-IP
integer under a coordination-store key (the Go `GetRating` body is not
under src/); a missing key reads as 0, matching store increment
semantics. -/
def GetRating (sr : SuspiciousRating) (ip : String) : Int :=
  lookupRating sr.ratings ip

/-- Modelled from the spec: `updateRating(ip, delta)` — atomic increment of
the per-IP key in the store (the Go `UpdateRating` body is not under
src/). -/
def UpdateRating (sr : SuspiciousRating) (ip : String) (delta : Int) :
    SuspiciousRating :=
  { ratings := bumpRating sr.ratings ip delta, maxSuspicion := sr.maxSuspicion }

inductive EntryOutcome where
  | forbidden
  | proceed
deriving DecidableEq

/-- The detection block of the entry-point `/` handler in `main`:
`attack` is the value of `DetectAttack(r)` (heuristic, external to this
block); a detected attack adds 5, then the rating is read and compared
against the threshold (403 on excess), and only a request that passes adds
the final 1. Returns the updated tracker and the outcome
(`forbidden` = `http.Error(w, "Forbidden", 403)` without further pipeline
steps). -/
def entryDetectionStep (attack : Bool) (sr : SuspiciousRating) (ip : String) :
    SuspiciousRating × EntryOutcome :=
  let sr1 := if attack then UpdateRating sr ip 5 else sr
  let rating := GetRating sr1 ip
  if rating > sr1.maxSuspicion then (sr1, .forbidden)
  else (UpdateRating sr1 ip 1, .proceed)

/-! ## Basic lemmas about the counter map -/

theorem lookupCount_bumpCount (m : Counts) (ip : String) :
    lookupCount (bumpCount m ip) ip = lookupCount m ip + 1 := by
  induction m with
  | nil => simp [bumpCount, lookupCount]
  | cons kv rest ih =>
    obtain ⟨k, v⟩ := kv
    by_cases hk : k = ip
    · simp [bumpCount, lookupCount, hk]
    · simp [bumpCount, lookupCount, hk, ih]

theorem handleRoot_fst (env : WorkerEnv) (counts : Counts) (r : Request) :
    (handleRoot env counts r).1 = bumpCount counts r.remoteAddr := rfl

theorem handleRoot_snd (env : WorkerEnv) (counts : Counts) (r : Request) :
    (handleRoot env counts r).2
      = rootResponse env
          (lookupCount (bumpCount counts r.remoteAddr) r.remoteAddr) r := rfl

/-! ## Lemmas about the registry -/

theorem listSwap_length (l : List String) (i j : Nat) :
    (listSwap l i j).length = l.length := by
  unfold listSwap
  split <;> simp

theorem applySwaps_length (s : List (Nat × Nat)) (l : List String) :
    (applySwaps l s).length = l.length := by
  induction s generalizing l with
  | nil => rfl
  | cons a rest ih =>
    show (applySwaps (listSwap l a.1 a.2) rest).length = l.length
    rw [ih, listSwap_length]

theorem headD_mem (l : List String) (d : String) (h : l ≠ []) :
    l.headD d ∈ l := by
  cases l with
  | nil => exact absurd rfl h
  | cons a t => simp [List.headD]

/-! ## Lemmas about headers -/

theorem hValues_hSet (h : Headers) (key v : String) :
    hValues (hSet h key v) key = [v] := by
  induction h with
  | nil => simp [hSet, hValues]
  | cons kv rest ih =>
    obtain ⟨k, vs⟩ := kv
    by_cases hk : k = key
    · simp [hSet, hValues, hk]
    · simp [hSet, hValues, hk, ih]

theorem applyRule_isSome (engine : RegexEngine) (h : Headers)
    (rule : HeaderRule)
    (hcomp : rule.action = "replace-header" → rule.regex ≠ "" →
      (engine rule.regex).isSome = true) :
    (applyRule engine h rule).isSome = true := by
  unfold applyRule
  split
  · rfl
  split
  · rfl
  split
  · rfl
  split
  · rename_i h1 h2 h3 hrepl
    split
    · rename_i hre
      split
      · rename_i hval
        have := hcomp hrepl hre
        cases heng : engine rule.regex with
        | none => rw [heng] at this; simp at this
        | some f => simp [heng]
      · rfl
    · rfl
  · rfl

/-! ## Lemmas about the suspicion tracker -/

theorem lookupRating_bumpRating (m : Ratings) (ip : String) (d : Int) :
    lookupRating (bumpRating m ip d) ip = lookupRating m ip + d := by
  induction m with
  | nil => simp [bumpRating, lookupRating]
  | cons kv rest ih =>
    obtain ⟨k, v⟩ := kv
    by_cases hk : k = ip
    · simp [bumpRating, lookupRating, hk]
    · simp [bumpRating, lookupRating, hk, ih]

theorem GetRating_UpdateRating (sr : SuspiciousRating) (ip : String) (d : Int) :
    GetRating (UpdateRating sr ip d) ip = GetRating sr ip + d :=
  lookupRating_bumpRating sr.ratings ip d

theorem maxSuspicion_UpdateRating (sr : SuspiciousRating) (ip : String)
    (d : Int) : (UpdateRating sr ip d).maxSuspicion = sr.maxSuspicion := rfl

/-! ## Claim C1 -/

/-- C1 (corrected): in the worker handler, provided the per-IP counter
after its increment does not exceed 500 and the store read of
`active_proxy` succeeds, every request whose `"https://" ++ host` differs
from the stored `active_proxy` is answered with a 302 redirect to
`active_proxy ++ requestURI` and is not forwarded upstream. -/
theorem shed_redirect_when_inactive (env : WorkerEnv) (counts : Counts)
    (r : Request) (ap : String)
    (hcount : lookupCount (bumpCount counts r.remoteAddr) r.remoteAddr ≤ 500)
    (hget : env.activeProxyGet = some ap)
    (hhost : "https://" ++ r.host ≠ ap) :
    (handleRoot env counts r).2
      = WorkerResponse.redirect 302 (ap ++ r.requestURI) := by
  rw [handleRoot_snd]
  unfold rootResponse
  rw [if_neg (by omega), hget]
  simp [hhost]

/-- Witness for the corrected C1 at a concrete request. -/
theorem shed_redirect_when_inactive_witness :
    (handleRoot (WorkerEnv.mk (some "https://active.example") none none false)
        [] (Request.mk "9.9.9.9" "other.example" "/x" "" (some []))).2
      = WorkerResponse.redirect 302 ("https://active.example" ++ "/x") :=
  shed_redirect_when_inactive _ _ _ _ (by decide) rfl (by decide)

/-- C1 as stated is false on the code: with the per-IP counter already at
500, a request whose host differs from `active_proxy` is answered 429, not
the shedding 302 redirect, because the rate-limit check runs first. -/
theorem shed_redirect_counterexample :
    (handleRoot (WorkerEnv.mk (some "https://active.example") none none false)
        [("9.9.9.9", 500)]
        (Request.mk "9.9.9.9" "other.example" "/x" "" (some []))).2
      = WorkerResponse.httpError 429 "Too Many Requests" ∧
    (handleRoot (WorkerEnv.mk (some "https://active.example") none none false)
        [("9.9.9.9", 500)]
        (Request.mk "9.9.9.9" "other.example" "/x" "" (some []))).2
      ≠ WorkerResponse.redirect 302 ("https://active.example" ++ "/x") := by
  constructor <;> decide

/-! ## Claim C3 -/

/-- C3: per source IP, one handler invocation raises the in-memory counter
by exactly 1 (so a first request seeds it to 1), and whenever the counter
exceeds 500 the worker responds 429 without forwarding upstream. -/
theorem rate_counter_behavior (env : WorkerEnv) (counts : Counts)
    (r : Request) :
    lookupCount (handleRoot env counts r).1 r.remoteAddr
        = lookupCount counts r.remoteAddr + 1 ∧
    (lookupCount counts r.remoteAddr = 0 →
        lookupCount (handleRoot env counts r).1 r.remoteAddr = 1) ∧
    (lookupCount (handleRoot env counts r).1 r.remoteAddr > 500 →
        (handleRoot env counts r).2
          = WorkerResponse.httpError 429 "Too Many Requests") := by
  refine ⟨?_, ?_, ?_⟩
  · rw [handleRoot_fst]
    exact lookupCount_bumpCount counts r.remoteAddr
  · intro h0
    rw [handleRoot_fst, lookupCount_bumpCount, h0]
  · intro hgt
    rw [handleRoot_fst] at hgt
    rw [handleRoot_snd]
    unfold rootResponse
    rw [if_pos hgt]

/-- Witness for C3: a fresh IP ends at counter 1, and an IP at 500 gets
429 on its next request. -/
theorem rate_counter_behavior_witness :
    (handleRoot (WorkerEnv.mk (some "https://h") none none false)
        [("1.1.1.1", 500)] (Request.mk "1.1.1.1" "h" "/x" "" (some []))).2
      = WorkerResponse.httpError 429 "Too Many Requests" ∧
    lookupCount (handleRoot (WorkerEnv.mk (some "https://h") none none false)
        [] (Request.mk "1.1.1.1" "h" "/x" "" (some []))).1 "1.1.1.1" = 1 :=
  ⟨(rate_counter_behavior _ _ _).2.2 (by decide),
   (rate_counter_behavior _ _ _).2.1 (by decide)⟩

/-! ## Claim C10 -/

/-- C10: the per-IP rate-limit check runs before the active-proxy
confirmation: a request whose counter exceeds 500 is answered 429 even
when the worker is not the active proxy (so no shedding 302 is issued). -/
theorem rate_limit_precedes_shedding (env : WorkerEnv) (counts : Counts)
    (r : Request) (ap : String)
    (_hget : env.activeProxyGet = some ap)
    (_hhost : "https://" ++ r.host ≠ ap)
    (hcount : lookupCount (bumpCount counts r.remoteAddr) r.remoteAddr > 500) :
    (handleRoot env counts r).2
      = WorkerResponse.httpError 429 "Too Many Requests" := by
  rw [handleRoot_snd]
  unfold rootResponse
  rw [if_pos hcount]

/-- Witness for C10 at a concrete non-active worker. -/
theorem rate_limit_precedes_shedding_witness :
    (handleRoot (WorkerEnv.mk (some "https://elsewhere") none none false)
        [("2.2.2.2", 777)] (Request.mk "2.2.2.2" "here" "/y" "" (some []))).2
      = WorkerResponse.httpError 429 "Too Many Requests" :=
  rate_limit_precedes_shedding _ _ _ _ rfl (by decide) (by decide)

/-! ## Claim C4 -/

/-- C4: whenever the detection service is consulted and classifies the
request MALICIOUS, and `403.html` is readable, the worker responds with
status 403, content type text/html, and exactly the bytes of `403.html`
as body. -/
theorem malicious_serves_403_page (env : WorkerEnv) (counts : Counts)
    (r : Request) (ap : String) (b page403 : List Nat)
    (hcount : lookupCount (bumpCount counts r.remoteAddr) r.remoteAddr ≤ 500)
    (hget : env.activeProxyGet = some ap)
    (hhost : "https://" ++ r.host = ap)
    (hbody : r.body = some b)
    (hdet : env.enableDetection = true)
    (hverdict : env.detectionResult = some "MALICIOUS")
    (hfile : env.forbiddenHtml = some page403) :
    (handleRoot env counts r).2
      = WorkerResponse.page 403 "text/html" page403 := by
  rw [handleRoot_snd]
  unfold rootResponse
  rw [if_neg (by omega), hget]
  simp [hhost, hbody, hdet, hverdict, hfile]

/-- Witness for C4 at a concrete malicious request. -/
theorem malicious_serves_403_page_witness :
    (handleRoot
        (WorkerEnv.mk (some "https://h") (some "MALICIOUS") (some [60, 104]) true)
        [] (Request.mk "3.3.3.3" "h" "/login" "" (some [97, 98]))).2
      = WorkerResponse.page 403 "text/html" [60, 104] :=
  malicious_serves_403_page _ _ _ _ [97, 98] _ (by decide) rfl (by decide) rfl
    rfl rfl rfl

/-! ## Claim C9 -/

/-- C9 (corrected): on a failed store read the entry point answers 500;
the worker falls back to the conservative default only at startup, to seed
its cached URL, while a failed per-request store read makes the worker
fail the request with 500 as well (no fallback in the active-proxy
comparison). -/
theorem store_unavailable_amended (cur requested : GoURL) (uri : String)
    (env : WorkerEnv) (counts : Counts) (r : Request)
    (hget : env.activeProxyGet = none) :
    pmServeHTTP none cur requested uri = PMResponse.internalError ∧
    startupActiveProxy none = "https://localhost" ∧
    (lookupCount (bumpCount counts r.remoteAddr) r.remoteAddr ≤ 500 →
      (handleRoot env counts r).2
        = WorkerResponse.httpError 500 "Internal Server Error") := by
  refine ⟨rfl, rfl, ?_⟩
  intro hcount
  rw [handleRoot_snd]
  unfold rootResponse
  rw [if_neg (by omega), hget]

/-- Witness for the corrected C9 at concrete inputs. -/
theorem store_unavailable_amended_witness :
    pmServeHTTP none (GoURL.mk "https" "h:8081") (GoURL.mk "https" "h:8082")
        "/x" = PMResponse.internalError ∧
    startupActiveProxy none = "https://localhost" ∧
    (handleRoot (WorkerEnv.mk none none none false) []
        (Request.mk "9.9.9.9" "h" "/x" "" (some []))).2
      = WorkerResponse.httpError 500 "Internal Server Error" := by
  have h := store_unavailable_amended (GoURL.mk "https" "h:8081")
    (GoURL.mk "https" "h:8082") "/x" (WorkerEnv.mk none none none false) []
    (Request.mk "9.9.9.9" "h" "/x" "" (some [])) rfl
  exact ⟨h.1, h.2.1, h.2.2 (by decide)⟩

/-- C9 as stated is false on the code for the worker: with the store
unavailable and a host that matches the claimed fallback
`https://localhost`, the worker answers 500 instead of using the fallback
for the comparison and serving the request. -/
theorem store_unavailable_counterexample :
    (handleRoot (WorkerEnv.mk none none none false) []
        (Request.mk "9.9.9.9" "localhost" "/x" "" (some []))).2
      = WorkerResponse.httpError 500 "Internal Server Error" ∧
    (handleRoot (WorkerEnv.mk none none none false) []
        (Request.mk "9.9.9.9" "localhost" "/x" "" (some []))).2
      ≠ WorkerResponse.forward
          (Request.mk "9.9.9.9" "localhost" "/x" "" (some [])) := by
  constructor <;> decide

/-! ## Claim C2 -/

/-- C2: in every reachable registry state (initial construction followed by
any number of rotations, each of which permutes the list in place and sets
the cursor to position 0), the endpoint list is non-empty and the cursor
is a member of it. -/
theorem registry_invariant (pm : ProxyManager) (h : ReachablePM pm) :
    pm.proxies ≠ [] ∧ pm.currentProxy ∈ pm.proxies := by
  induction h with
  | start urls hne =>
    exact ⟨hne, List.head_mem hne⟩
  | step pm s hr ih =>
    have hne' : applySwaps pm.proxies s ≠ [] := by
      intro hc
      apply ih.1
      have hlen := applySwaps_length s pm.proxies
      rw [hc] at hlen
      exact List.eq_nil_of_length_eq_zero hlen.symm
    exact ⟨hne', headD_mem _ _ hne'⟩

theorem registry_urls_ne_nil :
    (["https://h:8081", "https://h:8082"] : List String) ≠ [] := by decide

/-- Witness for C2: a two-endpoint registry after one rotation that swaps
the endpoints. -/
theorem registry_invariant_witness :
    (switchProxy (NewProxyManager ["https://h:8081", "https://h:8082"]
        registry_urls_ne_nil) [(1, 0)]).proxies ≠ [] ∧
    (switchProxy (NewProxyManager ["https://h:8081", "https://h:8082"]
        registry_urls_ne_nil) [(1, 0)]).currentProxy
      ∈ (switchProxy (NewProxyManager ["https://h:8081", "https://h:8082"]
        registry_urls_ne_nil) [(1, 0)]).proxies :=
  registry_invariant _
    (ReachablePM.step _ _ (ReachablePM.start _ registry_urls_ne_nil))

/-! ## Claim C5 -/

/-- C5: evaluation of the model at the failing input. The request body
reaches the backend bytes-identical, but the response body is gzipped
twice (once by `ModifyResponse`, once by the `gzipMiddleware` writer
wrapped around the handler), so one gzip decoding does not recover the
backend body; two decodings do. `modelGzip` is injective and
left-inverted by `modelGunzip`, like the real encoder. -/
theorem gzip_roundtrip_double_encoding :
    modelGunzip (modelGzip [7, 8, 9]) = [7, 8, 9] ∧
    backendReceivedBody (WorkerEnv.mk (some "https://h") none none false) []
        (Request.mk "10.0.0.1" "h" "/p" "gzip" (some [1, 2, 3]))
      = some [1, 2, 3] ∧
    forwardedClientBody litEngine [] modelGzip
        (WorkerEnv.mk (some "https://h") none none false) []
        (Request.mk "10.0.0.1" "h" "/p" "gzip" (some [1, 2, 3]))
        (UpstreamResponse.mk [] [7, 8, 9])
      = some (modelGzip (modelGzip [7, 8, 9])) ∧
    modelGunzip (modelGzip (modelGzip [7, 8, 9])) ≠ [7, 8, 9] ∧
    modelGunzip (modelGunzip (modelGzip (modelGzip [7, 8, 9]))) = [7, 8, 9] := by
  refine ⟨rfl, by decide, by decide, by decide, rfl⟩

/-! ## Claim C6 -/

/-- C6 (corrected): a replace-header rule reads only the value of the
first occurrence of the named header, substitutes the replacement at every
regex match inside that single value, and Sets the header to the rewritten
value, collapsing the header to exactly one occurrence. -/
theorem replace_header_first_occurrence (engine : RegexEngine) (h : Headers)
    (rule : HeaderRule) (f : String → String → String)
    (hact : rule.action = "replace-header")
    (hre : rule.regex ≠ "")
    (hcomp : engine rule.regex = some f)
    (hval : hGet h rule.header ≠ "") :
    applyRule engine h rule
      = some (hSet h rule.header (f (hGet h rule.header) rule.replacement)) ∧
    hValues (hSet h rule.header (f (hGet h rule.header) rule.replacement))
        rule.header
      = [f (hGet h rule.header) rule.replacement] := by
  constructor
  · unfold applyRule
    rw [hact]
    simp [hre, hval, hcomp]
  · exact hValues_hSet h rule.header (f (hGet h rule.header) rule.replacement)

/-- Witness for the corrected C6: two occurrences of the header; only the
first is rewritten and kept. -/
theorem replace_header_first_occurrence_witness :
    applyRule litEngine [("X-Test", ["a", "a"])]
        (HeaderRule.mk "replace-header" "X-Test" "" "a" "b")
      = some (hSet [("X-Test", ["a", "a"])] "X-Test"
          (litReplaceAll "a" (hGet [("X-Test", ["a", "a"])] "X-Test") "b")) ∧
    hValues (hSet [("X-Test", ["a", "a"])] "X-Test"
          (litReplaceAll "a" (hGet [("X-Test", ["a", "a"])] "X-Test") "b"))
        "X-Test"
      = [litReplaceAll "a" (hGet [("X-Test", ["a", "a"])] "X-Test") "b"] :=
  replace_header_first_occurrence litEngine _ _ _ rfl (by decide) rfl
    (by decide)

/-- C6 as stated is false on the code: with two occurrences of the header
both matching the regex, the result keeps a single rewritten value instead
of rewriting each occurrence. -/
theorem replace_header_counterexample :
    applyHeaderRules litEngine
        [HeaderRule.mk "replace-header" "X-Test" "" "a" "b"]
        [("X-Test", ["a", "a"])]
      = some [("X-Test", ["b"])] ∧
    hValues [("X-Test", ["b"])] "X-Test"
      ≠ (hValues [("X-Test", ["a", "a"])] "X-Test").map
          (fun v => litReplaceAll "a" v "b") := by
  constructor <;> decide

/-! ## Claim C7 -/

/-- C7 (corrected): applying the header-rule engine is total provided
every replace-header rule with a non-empty regex has a regex that
compiles; a rule whose regex fails to compile is not skipped but makes the
application abort abnormally (the `regexp.MustCompile` panic). -/
theorem header_rules_total_when_compiling (engine : RegexEngine)
    (rules : List HeaderRule) (h : Headers)
    (hcomp : ∀ rule ∈ rules, rule.action = "replace-header" →
      rule.regex ≠ "" → (engine rule.regex).isSome = true) :
    (applyHeaderRules engine rules h).isSome = true := by
  induction rules generalizing h with
  | nil => rfl
  | cons rule rest ih =>
    have h1 := applyRule_isSome engine h rule
      (hcomp rule (List.mem_cons_self _ _))
    cases happ : applyRule engine h rule with
    | none => rw [happ] at h1; simp at h1
    | some h' =>
      show (applyHeaderRules engine (rule :: rest) h).isSome = true
      unfold applyHeaderRules
      rw [happ]
      exact ih h' (fun rr hrr => hcomp rr (List.mem_cons_of_mem _ hrr))

/-- Witness for the corrected C7 on a compiling rule list. -/
theorem header_rules_total_witness :
    (applyHeaderRules litEngine
        [HeaderRule.mk "set-header" "X-Frame-Options" "DENY" "" ""]
        []).isSome = true :=
  header_rules_total_when_compiling litEngine _ _ (by decide)

/-- C7 as stated is false on the code: a replace-header rule whose regex
does not compile aborts the whole application (models the
`regexp.MustCompile` panic) instead of being skipped. -/
theorem header_rules_panic_counterexample :
    applyHeaderRules litEngine
        [HeaderRule.mk "replace-header" "X-Test" "" "(" "y"]
        [("X-Test", ["v"])]
      = none ∧
    (applyHeaderRules litEngine
        [HeaderRule.mk "replace-header" "X-Test" "" "(" "y"]
        [("X-Test", ["v"])]).isSome = false := by
  constructor <;> decide

/-! ## Claim C8 -/

/-- C8 (corrected): at the entry point with detection enabled, the outcome
is 403 exactly when the rating read after the attack increment exceeds
`maxSuspicion`; a detected attack adds 5 before that check and 1 more
afterwards when not refused (6 in total; 5 when refused), while a benign
request adds 1 when not refused and 0 when refused. -/
theorem entry_suspicion_amended (sr : SuspiciousRating) (ip : String)
    (attack : Bool) :
    ((entryDetectionStep attack sr ip).2 = EntryOutcome.forbidden ↔
      GetRating (if attack then UpdateRating sr ip 5 else sr) ip
        > sr.maxSuspicion) ∧
    (attack = true →
      (entryDetectionStep attack sr ip).2 = EntryOutcome.proceed →
      GetRating (entryDetectionStep attack sr ip).1 ip = GetRating sr ip + 6) ∧
    (attack = true →
      (entryDetectionStep attack sr ip).2 = EntryOutcome.forbidden →
      GetRating (entryDetectionStep attack sr ip).1 ip = GetRating sr ip + 5) ∧
    (attack = false →
      (entryDetectionStep attack sr ip).2 = EntryOutcome.proceed →
      GetRating (entryDetectionStep attack sr ip).1 ip = GetRating sr ip + 1) ∧
    (attack = false →
      (entryDetectionStep attack sr ip).2 = EntryOutcome.forbidden →
      GetRating (entryDetectionStep attack sr ip).1 ip = GetRating sr ip) := by
  cases attack with
  | false =>
    by_cases hgt : GetRating sr ip > sr.maxSuspicion
    · simp [entryDetectionStep, hgt, GetRating_UpdateRating]
    · simp [entryDetectionStep, hgt, GetRating_UpdateRating]
  | true =>
    by_cases hgt : GetRating sr ip + 5 > sr.maxSuspicion
    · simp [entryDetectionStep, maxSuspicion_UpdateRating,
        GetRating_UpdateRating, hgt]
    · simp [entryDetectionStep, maxSuspicion_UpdateRating,
        GetRating_UpdateRating, hgt]
      all_goals omega

/-- Witness for the corrected C8: a fresh IP, detected attack, not
refused, ends 6 above its initial rating. -/
theorem entry_suspicion_amended_witness :
    GetRating (entryDetectionStep true (SuspiciousRating.mk [] 20)
        "1.2.3.4").1 "1.2.3.4"
      = GetRating (SuspiciousRating.mk [] 20) "1.2.3.4" + 6 :=
  (entry_suspicion_amended (SuspiciousRating.mk [] 20) "1.2.3.4" true).2.1
    rfl (by decide)

/-- C8 as stated is false on the code: a detected attack that is not
refused raises the rating by 6 (5 before the threshold check plus the
unconditional 1 after it), not by exactly 5. -/
theorem entry_suspicion_counterexample :
    GetRating (entryDetectionStep true (SuspiciousRating.mk [] 20)
        "1.2.3.4").1 "1.2.3.4" = 6 ∧
    (entryDetectionStep true (SuspiciousRating.mk [] 20) "1.2.3.4").2
      = EntryOutcome.proceed ∧
    (6 : Int) ≠ 5 := by
  refine ⟨by decide, by decide, by decide⟩

end MorphProxy
